import Mathlib

/-!
# Verification of the `SpectrumLookup` core of `spec_lookup.py`

This file gives a shallow embedding of `scqubits/core/spec_lookup.py` and proves
properties of it.  Conventions of the embedding:

* Python `None` (the "unassigned" sentinel) is `Option.none`; an assigned dressed
  index `j` is `some j`.
* Uncaught Python exceptions (`IndexError`, `TypeError`, `AttributeError`,
  `ValueError`) are modelled with `Except String`; a normal return value `v` is
  `Except.ok v`.
* Numeric amplitudes are complex numbers with rational components (`Cx`).  Since
  `abs` of such a number is in general irrational, every comparison of absolute
  values in the source (`np.abs(...).argmax()`, `max_overlap < 0.5`) is embedded
  as the equivalent comparison of *squared* moduli: `|z|` is strictly monotone in
  `|z|^2` on nonnegative values, so the argmax is unchanged and the threshold
  `0.5` on `|z|` becomes `1/4` on `|z|^2`.
* Eigenenergies are rationals.
* Subsystems (`QuantumSystem` objects, compared only by identity/equality) are
  modelled as natural-number identifiers.
-/

/-- A complex amplitude with rational real and imaginary parts; an entry of the
overlap matrix `overlap_matrix` in `_generate_single_mapping`. -/
structure Cx where
  re : ℚ
  im : ℚ
deriving DecidableEq

/-- Squared modulus of an amplitude.  `np.abs z < c` (for `c ≥ 0`) holds iff
`absSq z < c^2`, and `np.abs` argmaxes agree with `absSq` argmaxes. -/
def absSq (z : Cx) : ℚ :=
  z.re * z.re + z.im * z.im

/-- Maximum of a list of rationals (the value `np.abs(col).max()` would give);
junk value `0` on the empty list, where numpy would raise. -/
def maxList : List ℚ → ℚ
  | [] => 0
  | [x] => x
  | x :: y :: ys => max x (maxList (y :: ys))

/-- First-occurrence argmax of a list of rationals, embedding `np.argmax`:
the least index attaining the maximum.  Junk value `0` on the empty list,
where numpy would raise. -/
def npArgmax : List ℚ → Nat
  | [] => 0
  | [_] => 0
  | x :: y :: ys =>
      let j := npArgmax (y :: ys)
      if x < (y :: ys).getD j 0 then j + 1 else 0

/-- The list of squared moduli of column `b` of the overlap matrix, embedding
`np.abs(overlap_matrix[:, b])` (up to squaring, see the header).  The matrix is
stored as a list of rows. -/
def columnAbsSq (overlap_matrix : List (List Cx)) (b : Nat) : List ℚ :=
  overlap_matrix.map (fun row => absSq (row.getD b ⟨0, 0⟩))

/-- Embedding of `SpectrumLookup._generate_single_mapping`: for each bare basis
index `b < dimension`, take the first-occurrence argmax of the absolute
amplitudes of column `b`; if the maximal absolute amplitude is below `0.5`
(squared modulus below `1/4`) append `None`, else append the argmax position. -/
def generate_single_mapping (overlap_matrix : List (List Cx)) (dimension : Nat) :
    List (Option Nat) :=
  (List.range dimension).map (fun bare_basis_index =>
    let col := columnAbsSq overlap_matrix bare_basis_index
    let max_position := npArgmax col
    let max_overlap := col.getD max_position 0
    if max_overlap < 1/4 then none else some max_position)

/-- Embedding of `SpectrumLookup._generate_bare_labels`: the canonical list of
bare product-state labels, `itertools.product(range d_1, ..., range d_n)` with
the last subsystem's index varying fastest.  A label is a list of per-subsystem
indices. -/
def generate_bare_labels (subsystem_dims : List Nat) : List (List Nat) :=
  match subsystem_dims with
  | [] => [[]]
  | d :: ds =>
      (List.range d).flatMap (fun i =>
        (generate_bare_labels ds).map (fun label => i :: label))

/-- Bare spectral data for one subsystem (`SpectrumData` with `state_table` and
`energy_table`).  For a subsystem whose bare spectrum varies over the sweep the
outer list index is the parameter index; for other subsystems the code returns
the whole table unindexed. -/
structure BareSpecData where
  state_table : List (List (List ℚ))
  energy_table : List (List ℚ)
deriving DecidableEq

/-- The capability surface of a `ParameterSweep` object used by the lookup code:
its subsystems (by identifier, `get_subsys_index` = position), the
`subsys_update_list`, and its lookup's `_bare_specdata_list`. -/
structure ParameterSweep where
  subsystems : List Nat
  subsys_update_list : List Nat
  lookup_bare_specdata_list : List BareSpecData
deriving DecidableEq

/-- The dynamically-typed first argument of `shared_lookup_bare_eigenstates`:
a `ParameterSweep`, a `HilbertSpace` (of which only the subsystem list is
used), or `None` (what `SpectrumLookup.bare_eigenstates` passes when the
lookup is owned by a `HilbertSpace`). -/
inductive FrameworkRef where
  | sweepRef (s : ParameterSweep)
  | hilbertRef (subsystems : List Nat)
  | noneRef
deriving DecidableEq

/-- Result of a bare-eigendata query: either the table at one parameter point,
or the subsystem's full (sweep-invariant) table. -/
inductive BareStates where
  | atParam (tbl : List (List ℚ))
  | full (tbls : List (List (List ℚ)))
deriving DecidableEq

/-- Result of a bare-eigenenergy query: either the energies at one parameter
point, or the subsystem's full (sweep-invariant) energy table. -/
inductive BareEnergies where
  | atParam (e : List ℚ)
  | full (es : List (List ℚ))
deriving DecidableEq

/-- Embedding of the module-level function `shared_lookup_bare_eigenstates`.
The Python `bare_specdata_list or self.lookup._bare_specdata_list` treats both
`None` and an empty list as falsy.  A `self` that is neither a `ParameterSweep`
nor a `HilbertSpace` (in particular `None`) raises `TypeError`; subscripting a
`None` `bare_specdata_list` in the `HilbertSpace` branch also raises
`TypeError`; a subsystem absent from the framework raises `ValueError` inside
`get_subsys_index`. -/
def shared_lookup_bare_eigenstates (self : FrameworkRef) (param_index : Nat)
    (subsys : Nat) (bare_specdata_list : Option (List BareSpecData)) :
    Except String BareStates :=
  match self with
  | .sweepRef s =>
      let specdata :=
        match bare_specdata_list with
        | none => s.lookup_bare_specdata_list
        | some l => if l.isEmpty then s.lookup_bare_specdata_list else l
      match List.indexOf? subsys s.subsystems with
      | none => .error "ValueError"
      | some subsys_index =>
        match specdata[subsys_index]? with
        | none => .error "IndexError"
        | some sd =>
          if subsys ∈ s.subsys_update_list then
            match sd.state_table[param_index]? with
            | none => .error "IndexError"
            | some tbl => .ok (.atParam tbl)
          else .ok (.full sd.state_table)
  | .hilbertRef subsystems =>
      match List.indexOf? subsys subsystems with
      | none => .error "ValueError"
      | some subsys_index =>
        match bare_specdata_list with
        | none => .error "TypeError"
        | some l =>
          match l[subsys_index]? with
          | none => .error "IndexError"
          | some sd => .ok (.full sd.state_table)
  | .noneRef => .error "TypeError"

/-- Embedding of the state of a `SpectrumLookup` instance after `__init__`.
`sweep = none` models a lookup owned by a `HilbertSpace` (where `_sweep` is
`None`); `sweep = some s` models ownership by a `ParameterSweep` `s`.
`hilbert_subsystems` are the subsystem identifiers of `_hilbertspace`, and
`dressed_state_table` holds, per parameter index, the already-converted overlap
matrix (the external `convert_esys_to_ndarray` is out of scope). -/
structure SpectrumLookup where
  dressed_energy_table : List (List ℚ)
  dressed_state_table : List (List (List Cx))
  canonical_bare_labels : List (List Nat)
  dressed_indices : List (List (Option Nat))
  out_of_sync : Bool
  sweep : Option ParameterSweep
  hilbert_subsystems : List Nat
  bare_specdata_list : List BareSpecData
deriving DecidableEq

/-- Embedding of `SpectrumLookup.dressed_index` (the undecorated body).  The
`try`/`except ValueError` around `self._canonical_bare_labels.index(...)` turns
an absent label into `None`; the subsequent subscripting of
`self._dressed_indices[param_index][lookup_position]` is *outside* the `try`
and an out-of-range index raises `IndexError`. -/
def SpectrumLookup.dressed_index (t : SpectrumLookup) (bare_labels : List Nat)
    (param_index : Nat) : Except String (Option Nat) :=
  match List.indexOf? bare_labels t.canonical_bare_labels with
  | none => .ok none
  | some lookup_position =>
    match t.dressed_indices[param_index]? with
    | none => .error "IndexError"
    | some assignments =>
      match assignments[lookup_position]? with
      | none => .error "IndexError"
      | some d => .ok d

/-- Embedding of `SpectrumLookup.bare_index` (the undecorated body).  The
searched list has entries of type `Option Nat` (Python ints or `None`), and the
search key is likewise an `Option Nat`: `.index` compares with `==`, so `None`
is findable.  Only the `ValueError` of `.index` is caught; the subscript
`self._dressed_indices[param_index]` raises `IndexError` when out of range. -/
def SpectrumLookup.bare_index (t : SpectrumLookup) (dressed_index : Option Nat)
    (param_index : Nat) : Except String (Option (List Nat)) :=
  match t.dressed_indices[param_index]? with
  | none => .error "IndexError"
  | some assignments =>
    match List.indexOf? dressed_index assignments with
    | none => .ok none
    | some lookup_position =>
      match t.canonical_bare_labels[lookup_position]? with
      | none => .error "IndexError"
      | some basis_labels => .ok (some basis_labels)

/-- Embedding of `SpectrumLookup.dressed_eigenstates` (undecorated body):
`self._dressed_specdata.state_table[param_index]`. -/
def SpectrumLookup.dressed_eigenstates (t : SpectrumLookup) (param_index : Nat) :
    Except String (List (List Cx)) :=
  match t.dressed_state_table[param_index]? with
  | none => .error "IndexError"
  | some tbl => .ok tbl

/-- Embedding of `SpectrumLookup.dressed_eigenenergies` (undecorated body):
`self._dressed_specdata.energy_table[param_index]`. -/
def SpectrumLookup.dressed_eigenenergies (t : SpectrumLookup) (param_index : Nat) :
    Except String (List ℚ) :=
  match t.dressed_energy_table[param_index]? with
  | none => .error "IndexError"
  | some e => .ok e

/-- Embedding of `SpectrumLookup.energy_dressed_index` (undecorated body):
`self._dressed_specdata.energy_table[param_index][dressed_index]`, with both
subscripts able to raise `IndexError`. -/
def SpectrumLookup.energy_dressed_index (t : SpectrumLookup) (dressed_index : Nat)
    (param_index : Nat) : Except String ℚ :=
  match t.dressed_energy_table[param_index]? with
  | none => .error "IndexError"
  | some row =>
    match row[dressed_index]? with
    | none => .error "IndexError"
    | some v => .ok v

/-- Embedding of `SpectrumLookup.bare_eigenstates` (undecorated body): it calls
`shared_lookup_bare_eigenstates(self._sweep, param_index, subsys)` with no
`bare_specdata_list`; note that `self._sweep` is `None` when the lookup is
owned by a `HilbertSpace`. -/
def SpectrumLookup.bare_eigenstates (t : SpectrumLookup) (subsys : Nat)
    (param_index : Nat) : Except String BareStates :=
  shared_lookup_bare_eigenstates
    (match t.sweep with
     | some s => .sweepRef s
     | none => .noneRef)
    param_index subsys none

/-- Embedding of `SpectrumLookup.bare_eigenenergies` (undecorated body):
`self._hilbertspace.index(subsys)` raises `ValueError` for an unknown
subsystem; `subsys in self._sweep.subsys_update_list` raises `AttributeError`
when `self._sweep` is `None` (lookup owned by a `HilbertSpace`). -/
def SpectrumLookup.bare_eigenenergies (t : SpectrumLookup) (subsys : Nat)
    (param_index : Nat) : Except String BareEnergies :=
  match List.indexOf? subsys t.hilbert_subsystems with
  | none => .error "ValueError"
  | some subsys_index =>
    match t.sweep with
    | none => .error "AttributeError"
    | some s =>
      if subsys ∈ s.subsys_update_list then
        match t.bare_specdata_list[subsys_index]? with
        | none => .error "IndexError"
        | some sd =>
          match sd.energy_table[param_index]? with
          | none => .error "IndexError"
          | some e => .ok (.atParam e)
      else
        match t.bare_specdata_list[subsys_index]? with
        | none => .error "IndexError"
        | some sd => .ok (.full sd.energy_table)

/-- The warning text emitted by `check_sync_status`. -/
def syncWarningText : String :=
  "Spectrum lookup data is out of sync with systems originally involved in generating it."

/-- Embedding of the `check_sync_status` decorator: a wrapped call first emits
one warning when `_out_of_sync` is set, then runs the wrapped body unchanged and
returns its result.  A body is modelled as returning the list of warnings *it*
emits (nonempty only when it itself calls a decorated method) together with its
value; the wrapper prepends its own warning. -/
def check_sync_status {α : Type} (func : SpectrumLookup → List String × α)
    (t : SpectrumLookup) : List String × α :=
  let inner := func t
  ((if t.out_of_sync then [syncWarningText] else []) ++ inner.1, inner.2)

/-- The decorated `dressed_index` method: warnings emitted, and the result. -/
def guarded_dressed_index (t : SpectrumLookup) (bare_labels : List Nat)
    (param_index : Nat) : List String × Except String (Option Nat) :=
  check_sync_status (fun s => ([], s.dressed_index bare_labels param_index)) t

/-- The body of `energy_bare_index`: it calls `self.dressed_index(...)`, which
is the *decorated* method, so on a stale table the body itself emits a second
warning.  If the dressed index is assigned, look up
`self._dressed_specdata.energy_table[param_index][dressed_index]`; else return
`None`. -/
def energy_bare_index_body (t : SpectrumLookup) (bare_tuples : List Nat)
    (param_index : Nat) : List String × Except String (Option ℚ) :=
  let inner := guarded_dressed_index t bare_tuples param_index
  (inner.1,
    match inner.2 with
    | .error e => .error e
    | .ok none => .ok none
    | .ok (some d) =>
      match t.dressed_energy_table[param_index]? with
      | none => .error "IndexError"
      | some row =>
        match row[d]? with
        | none => .error "IndexError"
        | some v => .ok (some v))

/-- Embedding of `SpectrumLookup.energy_bare_index` (undecorated body, value
part). -/
def SpectrumLookup.energy_bare_index (t : SpectrumLookup) (bare_tuples : List Nat)
    (param_index : Nat) : Except String (Option ℚ) :=
  (energy_bare_index_body t bare_tuples param_index).2

/-- The decorated `bare_index` method. -/
def guarded_bare_index (t : SpectrumLookup) (dressed_index : Option Nat)
    (param_index : Nat) : List String × Except String (Option (List Nat)) :=
  check_sync_status (fun s => ([], s.bare_index dressed_index param_index)) t

/-- The decorated `dressed_eigenstates` method. -/
def guarded_dressed_eigenstates (t : SpectrumLookup) (param_index : Nat) :
    List String × Except String (List (List Cx)) :=
  check_sync_status (fun s => ([], s.dressed_eigenstates param_index)) t

/-- The decorated `dressed_eigenenergies` method. -/
def guarded_dressed_eigenenergies (t : SpectrumLookup) (param_index : Nat) :
    List String × Except String (List ℚ) :=
  check_sync_status (fun s => ([], s.dressed_eigenenergies param_index)) t

/-- The decorated `energy_bare_index` method. -/
def guarded_energy_bare_index (t : SpectrumLookup) (bare_tuples : List Nat)
    (param_index : Nat) : List String × Except String (Option ℚ) :=
  check_sync_status (fun s => energy_bare_index_body s bare_tuples param_index) t

/-- The decorated `energy_dressed_index` method. -/
def guarded_energy_dressed_index (t : SpectrumLookup) (dressed_index : Nat)
    (param_index : Nat) : List String × Except String ℚ :=
  check_sync_status (fun s => ([], s.energy_dressed_index dressed_index param_index)) t

/-- The decorated `bare_eigenstates` method. -/
def guarded_bare_eigenstates (t : SpectrumLookup) (subsys : Nat)
    (param_index : Nat) : List String × Except String BareStates :=
  check_sync_status (fun s => ([], s.bare_eigenstates subsys param_index)) t

/-- The decorated `bare_eigenenergies` method. -/
def guarded_bare_eigenenergies (t : SpectrumLookup) (subsys : Nat)
    (param_index : Nat) : List String × Except String BareEnergies :=
  check_sync_status (fun s => ([], s.bare_eigenenergies subsys param_index)) t

/-- Replace only the `out_of_sync` flag of a lookup, leaving every other field
unchanged (the transition performed externally by the owning framework). -/
def set_out_of_sync (t : SpectrumLookup) (b : Bool) : SpectrumLookup :=
  SpectrumLookup.mk t.dressed_energy_table t.dressed_state_table
    t.canonical_bare_labels t.dressed_indices b t.sweep t.hilbert_subsystems
    t.bare_specdata_list

/-- A small concrete `HilbertSpace`-owned lookup used by witnesses: one
subsystem of dimension 2, one parameter point with dressed energies `[5, 7]`,
canonical labels `[[0], [1]]`, and assignment list `[some 1, none]` (the bare
label `[1]` is unassigned).  Fields in constructor order:
`dressed_energy_table`, `dressed_state_table`, `canonical_bare_labels`,
`dressed_indices`, `out_of_sync`, `sweep`, `hilbert_subsystems`,
`bare_specdata_list`. -/
def exampleTable : SpectrumLookup :=
  SpectrumLookup.mk [[5, 7]] [[[Cx.mk 1 0, Cx.mk 0 0], [Cx.mk 0 0, Cx.mk 1 0]]]
    [[0], [1]] [[some 1, none]] false none [0] []

/-- The same table with the staleness flag set. -/
def exampleStaleTable : SpectrumLookup :=
  set_out_of_sync exampleTable true

theorem maxList_cons_cons (x y : ℚ) (ys : List ℚ) :
    maxList (x :: y :: ys) = max x (maxList (y :: ys)) := rfl

theorem le_maxList : ∀ (l : List ℚ), ∀ a ∈ l, a ≤ maxList l
  | [], a, ha => absurd ha (List.not_mem_nil a)
  | [x], a, ha => by
      rcases List.mem_singleton.mp ha with rfl
      exact le_refl _
  | x :: y :: ys, a, ha => by
      rcases List.mem_cons.mp ha with rfl | h
      · exact le_max_left _ _
      · exact le_trans (le_maxList (y :: ys) a h) (le_max_right _ _)

theorem npArgmax_lt_length : ∀ (l : List ℚ), l ≠ [] → npArgmax l < l.length
  | [_], _ => Nat.zero_lt_one
  | x :: y :: ys, _ => by
      have ih := npArgmax_lt_length (y :: ys) (by simp)
      simp only [npArgmax]
      split
      · exact Nat.succ_lt_succ ih
      · simp

theorem getD_npArgmax : ∀ (l : List ℚ), l ≠ [] → l.getD (npArgmax l) 0 = maxList l
  | [_], _ => rfl
  | x :: y :: ys, _ => by
      have ih := getD_npArgmax (y :: ys) (by simp)
      simp only [npArgmax]
      split
      case isTrue h =>
        rw [List.getD_cons_succ, ih, maxList_cons_cons]
        exact (max_eq_right (le_of_lt (ih ▸ h))).symm
      case isFalse h =>
        rw [List.getD_cons_zero, maxList_cons_cons]
        exact (max_eq_left (ih ▸ le_of_not_lt h)).symm

theorem npArgmax_first :
    ∀ (l : List ℚ) (i : Nat), i < npArgmax l → l.getD i 0 < maxList l
  | [], i, h => by simp [npArgmax] at h
  | [_], i, h => by simp [npArgmax] at h
  | x :: y :: ys, i, h => by
      have hmax := getD_npArgmax (y :: ys) (by simp)
      simp only [npArgmax] at h
      split at h
      case isTrue hx =>
        have hxlt : x < maxList (y :: ys) := hmax ▸ hx
        have hm : maxList (x :: y :: ys) = maxList (y :: ys) := by
          rw [maxList_cons_cons]
          exact max_eq_right (le_of_lt hxlt)
        cases i with
        | zero => rw [List.getD_cons_zero, hm]; exact hxlt
        | succ i' =>
            rw [List.getD_cons_succ, hm]
            exact npArgmax_first (y :: ys) i' (Nat.lt_of_succ_lt_succ h)
      case isFalse hx => exact absurd h (Nat.not_lt_zero i)

theorem indexOf?_eq_some_iff {α : Type} [BEq α] [LawfulBEq α] (a : α) :
    ∀ (l : List α) (i : Nat),
      List.indexOf? a l = some i ↔
        l[i]? = some a ∧ ∀ j, j < i → l[j]? ≠ some a
  | [], i => by simp
  | x :: xs, i => by
      rw [List.indexOf?_cons]
      by_cases hx : x = a
      · subst hx
        simp only [beq_self_eq_true, if_true]
        constructor
        · intro h
          injection h with h
          subst h
          exact ⟨by simp, fun j hj => absurd hj (Nat.not_lt_zero j)⟩
        · rintro ⟨h1, h2⟩
          cases i with
          | zero => rfl
          | succ i' => exact absurd (by simp) (h2 0 (Nat.succ_pos i'))
      · have hbeq : (x == a) = false := beq_eq_false_iff_ne.mpr hx
        rw [hbeq]
        simp only [Bool.false_eq_true, if_false]
        constructor
        · intro h
          rcases Option.map_eq_some'.mp h with ⟨k, hk, rfl⟩
          rcases (indexOf?_eq_some_iff a xs k).mp hk with ⟨h1, h2⟩
          refine ⟨by simpa using h1, fun j hj => ?_⟩
          cases j with
          | zero =>
              simp only [List.getElem?_cons_zero]
              intro hcontra
              exact hx (Option.some_injective _ hcontra)
          | succ j' =>
              rw [List.getElem?_cons_succ]
              exact h2 j' (Nat.lt_of_succ_lt_succ hj)
        · rintro ⟨h1, h2⟩
          cases i with
          | zero => exact absurd (by simpa using h1) hx
          | succ i' =>
              rw [List.getElem?_cons_succ] at h1
              have h2' : ∀ j, j < i' → xs[j]? ≠ some a := fun j hj => by
                have := h2 (j + 1) (Nat.succ_lt_succ hj)
                rwa [List.getElem?_cons_succ] at this
              rw [(indexOf?_eq_some_iff a xs i').mpr ⟨h1, h2'⟩]
              rfl

theorem indexOf?_eq_none_iff_not_mem {α : Type} [BEq α] [LawfulBEq α] (a : α)
    (l : List α) : List.indexOf? a l = none ↔ a ∉ l := by
  rw [show List.indexOf? a l = l.indexOf? a from rfl, List.indexOf?_eq_none_iff]
  constructor
  · intro h hmem
    exact h a hmem (beq_self_eq_true a)
  · intro h x hx hbeq
    exact h (eq_of_beq hbeq ▸ hx)

theorem indexOf?_isSome_of_mem {α : Type} [BEq α] [LawfulBEq α] {a : α} {l : List α}
    (h : a ∈ l) : ∃ i, List.indexOf? a l = some i := by
  cases hcase : List.indexOf? a l with
  | none => exact absurd h ((indexOf?_eq_none_iff_not_mem a l).mp hcase)
  | some i => exact ⟨i, rfl⟩

theorem length_generate_bare_labels :
    ∀ (dims : List Nat), (generate_bare_labels dims).length = dims.prod
  | [] => rfl
  | d :: ds => by
      have ih := length_generate_bare_labels ds
      simp only [generate_bare_labels, List.length_flatMap, List.prod_cons]
      induction d with
      | zero => simp
      | succ n ihn =>
          rw [List.range_succ, List.map_append, List.sum_append, ihn]
          simp only [List.map_cons, List.map_nil, List.sum_cons, List.sum_nil,
            Function.comp_apply, List.length_map, ih]
          rw [Nat.succ_mul]
          omega

theorem mem_generate_bare_labels :
    ∀ (dims : List Nat) (label : List Nat),
      label ∈ generate_bare_labels dims ↔
        label.length = dims.length ∧
          ∀ i, i < dims.length → label.getD i 0 < dims.getD i 0
  | [], label => by
      constructor
      · intro h
        have hlab : label = [] := by simpa [generate_bare_labels] using h
        subst hlab
        exact ⟨rfl, fun i hi => absurd hi (Nat.not_lt_zero i)⟩
      · rintro ⟨h1, -⟩
        have hlab : label = [] := List.length_eq_zero.mp h1
        subst hlab
        simp [generate_bare_labels]
  | d :: ds, label => by
      simp only [generate_bare_labels, List.mem_flatMap, List.mem_map,
        List.mem_range]
      constructor
      · rintro ⟨i, hi, t, ht, rfl⟩
        rcases (mem_generate_bare_labels ds t).mp ht with ⟨hlen, hbound⟩
        refine ⟨by simp [hlen], fun k hk => ?_⟩
        cases k with
        | zero => simpa using hi
        | succ k' =>
            simp only [List.getD_cons_succ]
            exact hbound k' (by simpa using hk)
      · rintro ⟨hlen, hbound⟩
        cases label with
        | nil => simp at hlen
        | cons a t =>
            have hlen' : t.length = ds.length := by simpa using hlen
            refine ⟨a, ?_, t, (mem_generate_bare_labels ds t).mpr
              ⟨hlen', fun k hk => ?_⟩, rfl⟩
            · simpa using hbound 0 (by simp)
            · have := hbound (k + 1) (by simpa using Nat.succ_lt_succ hk)
              simpa [List.getD_cons_succ] using this

theorem pairwise_lex_generate_bare_labels :
    ∀ (dims : List Nat),
      List.Pairwise (List.Lex (· < ·)) (generate_bare_labels dims)
  | [] => by simp [generate_bare_labels]
  | d :: ds => by
      have ih := pairwise_lex_generate_bare_labels ds
      simp only [generate_bare_labels]
      rw [List.pairwise_flatMap]
      constructor
      · intro i _
        rw [List.pairwise_map]
        exact ih.imp (fun h => List.Lex.cons h)
      · refine (List.pairwise_lt_range d).imp ?_
        intro i j hij x hx y hy
        rcases List.mem_map.mp hx with ⟨t1, -, rfl⟩
        rcases List.mem_map.mp hy with ⟨t2, -, rfl⟩
        exact List.Lex.rel hij

theorem nodup_generate_bare_labels (dims : List Nat) :
    (generate_bare_labels dims).Nodup := by
  refine (pairwise_lex_generate_bare_labels dims).imp ?_
  intro a b hab heq
  subst heq
  exact asymm hab hab

theorem generate_single_mapping_getD (m : List (List Cx)) (n b : Nat)
    (hb : b < n) :
    (generate_single_mapping m n).getD b none =
      (if (columnAbsSq m b).getD (npArgmax (columnAbsSq m b)) 0 < 1/4 then none
       else some (npArgmax (columnAbsSq m b))) := by
  unfold generate_single_mapping
  rw [List.getD_eq_getElem?_getD, List.getElem?_map, List.getElem?_range hb]
  rfl

/-- C1: for every overlap matrix and bare-basis column index `b` below the
dimension, the assignment computed by `_generate_single_mapping` is the lowest
row index attaining the maximum absolute amplitude in column `b` when that
maximum is at least `0.5` (squared modulus at least `1/4`; the boundary value
yields an assignment), and is `None` when the maximum is strictly below
`0.5`. -/
theorem C1_single_mapping_is_thresholded_first_argmax
    (m : List (List Cx)) (n b : Nat) (hb : b < n) (hm : m ≠ []) :
    ((1/4 : ℚ) ≤ maxList (columnAbsSq m b) →
      ∃ j, (generate_single_mapping m n).getD b none = some j ∧
        j < m.length ∧
        (columnAbsSq m b).getD j 0 = maxList (columnAbsSq m b) ∧
        ∀ i, i < j → (columnAbsSq m b).getD i 0 < maxList (columnAbsSq m b)) ∧
    (maxList (columnAbsSq m b) < 1/4 →
      (generate_single_mapping m n).getD b none = none) := by
  have hcol : columnAbsSq m b ≠ [] := by
    simpa [columnAbsSq] using hm
  have hget := getD_npArgmax (columnAbsSq m b) hcol
  have hlen : (columnAbsSq m b).length = m.length := List.length_map _ _
  have hkey := generate_single_mapping_getD m n b hb
  constructor
  · intro hge
    refine ⟨npArgmax (columnAbsSq m b), ?_, ?_,
      hget, fun i hi => npArgmax_first _ i hi⟩
    · rw [hkey, if_neg (not_lt.mpr (hget ▸ hge))]
    · have := npArgmax_lt_length (columnAbsSq m b) hcol
      omega
  · intro hlt
    rw [hkey, if_pos (by rw [hget]; exact hlt)]

/-- Witness for C1 at the threshold boundary: a 1×1 matrix with amplitude
`1/2 + 0i`, whose squared modulus is exactly `1/4` (absolute value exactly
`0.5`): the column is assigned, not unassigned. -/
theorem C1_single_mapping_witness :
    ∃ j, (generate_single_mapping [[Cx.mk (1/2) 0]] 1).getD 0 none = some j ∧
      j < 1 ∧
      (columnAbsSq [[Cx.mk (1/2) 0]] 0).getD j 0 =
        maxList (columnAbsSq [[Cx.mk (1/2) 0]] 0) ∧
      ∀ i, i < j → (columnAbsSq [[Cx.mk (1/2) 0]] 0).getD i 0 <
        maxList (columnAbsSq [[Cx.mk (1/2) 0]] 0) :=
  (C1_single_mapping_is_thresholded_first_argmax [[Cx.mk (1/2) 0]] 1 0
    Nat.zero_lt_one (by simp)).1
    (by norm_num [columnAbsSq, maxList, absSq])

/-- C2: the canonical bare-label sequence is the full Cartesian product of the
per-subsystem ranges in lexicographic order with the last subsystem varying
fastest; its length is the product of the dimensions; for dims `[2, 3]` it is
`[[0,0],[0,1],[0,2],[1,0],[1,1],[1,2]]`. -/
theorem C2_generate_bare_labels_is_lex_product (dims : List Nat) :
    (generate_bare_labels dims).length = dims.prod ∧
    (∀ label, label ∈ generate_bare_labels dims ↔
      label.length = dims.length ∧
        ∀ i, i < dims.length → label.getD i 0 < dims.getD i 0) ∧
    List.Pairwise (List.Lex (· < ·)) (generate_bare_labels dims) ∧
    generate_bare_labels [2, 3] =
      [[0, 0], [0, 1], [0, 2], [1, 0], [1, 1], [1, 2]] :=
  ⟨length_generate_bare_labels dims,
   mem_generate_bare_labels dims,
   pairwise_lex_generate_bare_labels dims,
   by decide⟩

/-- Witness for C2: the concrete `(2, 3)` instance from the spec. -/
theorem C2_generate_bare_labels_witness :
    generate_bare_labels [2, 3] =
      [[0, 0], [0, 1], [0, 2], [1, 0], [1, 1], [1, 2]] :=
  (C2_generate_bare_labels_is_lex_product [2, 3]).2.2.2

/-- C3: for every bare label and in-range `param_index` (on a table whose
assignment lists have the canonical length, as the constructor guarantees),
`dressed_index` returns `None` without raising when the label is absent from
the canonical sequence, and otherwise returns the assignment-list entry at the
label's canonical position (which may itself be `None`). -/
theorem C3_dressed_index_lookup
    (t : SpectrumLookup) (bare_labels : List Nat) (param_index : Nat)
    (hp : param_index < t.dressed_indices.length)
    (hlen : ∀ l ∈ t.dressed_indices, l.length = t.canonical_bare_labels.length) :
    (bare_labels ∉ t.canonical_bare_labels →
      t.dressed_index bare_labels param_index = .ok none) ∧
    (∀ pos, List.indexOf? bare_labels t.canonical_bare_labels = some pos →
      t.dressed_index bare_labels param_index =
        .ok ((t.dressed_indices.getD param_index []).getD pos none)) := by
  constructor
  · intro habs
    simp only [SpectrumLookup.dressed_index,
      (indexOf?_eq_none_iff_not_mem _ _).mpr habs]
  · intro pos hpos
    rcases (indexOf?_eq_some_iff _ _ _).mp hpos with ⟨h1, -⟩
    have hposlt : pos < t.canonical_bare_labels.length :=
      (List.getElem?_eq_some_iff.mp h1).1
    have hlst : t.dressed_indices[param_index].length =
        t.canonical_bare_labels.length := hlen _ (List.getElem_mem hp)
    have hposlt' : pos < t.dressed_indices[param_index].length := by omega
    simp only [SpectrumLookup.dressed_index, hpos,
      List.getElem?_eq_getElem hp, List.getElem?_eq_getElem hposlt',
      List.getD_eq_getElem?_getD, Option.getD_some]

/-- Witness for C3: on a concrete table, an absent label gives `ok none`, and a
present label gives the assignment entry at its canonical position (here itself
unassigned). -/
theorem C3_dressed_index_witness :
    exampleTable.dressed_index [5] 0 = .ok none ∧
    exampleTable.dressed_index [1] 0 = .ok none :=
  ⟨(C3_dressed_index_lookup exampleTable [5] 0 (by decide) (by decide)).1
      (by decide),
   (C3_dressed_index_lookup exampleTable [1] 0 (by decide) (by decide)).2 1 rfl⟩

/-- C4: for every dressed index `d` and in-range `param_index`, `bare_index`
returns the bare label at the first canonical position whose assignment entry
equals `d`, and returns `None` when no entry equals `d`. -/
theorem C4_bare_index_first_match
    (t : SpectrumLookup) (d param_index : Nat)
    (hp : param_index < t.dressed_indices.length)
    (hlen : ∀ l ∈ t.dressed_indices, l.length = t.canonical_bare_labels.length) :
    ((some d) ∉ t.dressed_indices.getD param_index [] →
      t.bare_index (some d) param_index = .ok none) ∧
    (∀ pos, (t.dressed_indices.getD param_index [])[pos]? = some (some d) →
      (∀ i, i < pos →
        (t.dressed_indices.getD param_index [])[i]? ≠ some (some d)) →
      t.bare_index (some d) param_index =
        .ok (some (t.canonical_bare_labels.getD pos []))) := by
  have hgetD : t.dressed_indices.getD param_index [] =
      t.dressed_indices[param_index] := by
    rw [List.getD_eq_getElem?_getD, List.getElem?_eq_getElem hp,
      Option.getD_some]
  constructor
  · intro habs
    rw [hgetD] at habs
    simp only [SpectrumLookup.bare_index, List.getElem?_eq_getElem hp,
      (indexOf?_eq_none_iff_not_mem _ _).mpr habs]
  · intro pos hat hfirst
    rw [hgetD] at hat hfirst
    have hfind : List.indexOf? (some d) t.dressed_indices[param_index] =
        some pos := (indexOf?_eq_some_iff _ _ _).mpr ⟨hat, hfirst⟩
    have hposlt : pos < t.dressed_indices[param_index].length :=
      (List.getElem?_eq_some_iff.mp hat).1
    have hposlt' : pos < t.canonical_bare_labels.length := by
      have := hlen _ (List.getElem_mem hp)
      omega
    simp only [SpectrumLookup.bare_index, List.getElem?_eq_getElem hp, hfind,
      List.getElem?_eq_getElem hposlt', List.getD_eq_getElem?_getD,
      Option.getD_some]

/-- Witness for C4: on `exampleTable`, dressed index `1` is matched at the
first canonical position (bare label `[0]`), and dressed index `5` is matched
nowhere. -/
theorem C4_bare_index_witness :
    exampleTable.bare_index (some 1) 0 = .ok (some [0]) ∧
    exampleTable.bare_index (some 5) 0 = .ok none :=
  ⟨(C4_bare_index_first_match exampleTable 1 0 (by decide) (by decide)).2 0 rfl
      (fun i hi => absurd hi (Nat.not_lt_zero i)),
   (C4_bare_index_first_match exampleTable 5 0 (by decide) (by decide)).1
      (by decide)⟩

/-- C5: the round trip: whenever `bare_index(d, p)` is assigned, feeding its
result back into `dressed_index` returns `d` again.  The hypothesis that the
canonical label sequence has no duplicates is guaranteed by the constructor
(`nodup_generate_bare_labels`). -/
theorem C5_round_trip
    (t : SpectrumLookup) (d param_index : Nat) (label : List Nat)
    (hnd : t.canonical_bare_labels.Nodup)
    (h : t.bare_index (some d) param_index = .ok (some label)) :
    t.dressed_index label param_index = .ok (some d) := by
  unfold SpectrumLookup.bare_index at h
  cases hlst : t.dressed_indices[param_index]? with
  | none => simp [hlst] at h
  | some lst =>
    simp only [hlst] at h
    cases hfind : List.indexOf? (some d) lst with
    | none => simp [hfind] at h
    | some pos =>
      simp only [hfind] at h
      cases hcan : t.canonical_bare_labels[pos]? with
      | none => simp [hcan] at h
      | some lbl =>
        simp only [hcan, Except.ok.injEq, Option.some.injEq] at h
        subst h
        rcases (indexOf?_eq_some_iff _ _ _).mp hfind with ⟨hat, -⟩
        have hfirst : ∀ j, j < pos → t.canonical_bare_labels[j]? ≠ some lbl := by
          intro j hj hcontra
          rcases List.getElem?_eq_some_iff.mp hcontra with ⟨hjlt, hjeq⟩
          rcases List.getElem?_eq_some_iff.mp hcan with ⟨hplt, hpeq⟩
          have : j = pos := (hnd.getElem_inj_iff).mp (by rw [hjeq, hpeq])
          omega
        simp only [SpectrumLookup.dressed_index,
          (indexOf?_eq_some_iff _ _ _).mpr ⟨hcan, hfirst⟩, hlst, hat]

/-- Witness for C5 on `exampleTable`: `bare_index (some 1) 0 = ok (some [0])`,
and indeed `dressed_index [0] 0 = ok (some 1)`. -/
theorem C5_round_trip_witness :
    exampleTable.dressed_index [0] 0 = .ok (some 1) :=
  C5_round_trip exampleTable 1 0 [0] (by decide) rfl

/-- C9: for a bare label that *is* present in the canonical sequence, an
out-of-range `param_index` makes `dressed_index` raise `IndexError` instead of
returning `None`: the `except ValueError` covers only the label lookup. -/
theorem C9_dressed_index_param_out_of_range
    (t : SpectrumLookup) (label : List Nat) (p : Nat)
    (hmem : label ∈ t.canonical_bare_labels)
    (hp : t.dressed_indices.length ≤ p) :
    t.dressed_index label p = .error "IndexError" := by
  rcases indexOf?_isSome_of_mem hmem with ⟨pos, hpos⟩
  have hnone : t.dressed_indices[p]? = none :=
    List.getElem?_eq_none hp
  simp only [SpectrumLookup.dressed_index, hpos, hnone]

/-- Witness for C9: `exampleTable` stores one assignment list, so
`param_index = 1` raises even though `[0]` is a known label. -/
theorem C9_dressed_index_witness :
    exampleTable.dressed_index [0] 1 = .error "IndexError" :=
  C9_dressed_index_param_out_of_range exampleTable [0] 1 (by decide) (by decide)

/-- C10: calling `bare_index` with the `None` sentinel as the dressed-index
argument, for a parameter index whose assignment list contains at least one
unassigned entry, returns the bare label at the first unassigned canonical
position — not "unassigned": the sentinel collides with ordinary list
search. -/
theorem C10_bare_index_none_sentinel
    (t : SpectrumLookup) (p : Nat)
    (hp : p < t.dressed_indices.length)
    (hlen : ∀ l ∈ t.dressed_indices, l.length = t.canonical_bare_labels.length)
    (hnone : none ∈ t.dressed_indices.getD p []) :
    ∃ pos,
      (t.dressed_indices.getD p [])[pos]? = some none ∧
      (∀ i, i < pos → (t.dressed_indices.getD p [])[i]? ≠ some none) ∧
      t.bare_index none p = .ok (some (t.canonical_bare_labels.getD pos [])) ∧
      t.bare_index none p ≠ .ok none := by
  have hgetD : t.dressed_indices.getD p [] = t.dressed_indices[p] := by
    rw [List.getD_eq_getElem?_getD, List.getElem?_eq_getElem hp,
      Option.getD_some]
  rw [hgetD] at hnone ⊢
  rcases indexOf?_isSome_of_mem hnone with ⟨pos, hpos⟩
  rcases (indexOf?_eq_some_iff _ _ _).mp hpos with ⟨hat, hfirst⟩
  have hposlt : pos < t.dressed_indices[p].length :=
    (List.getElem?_eq_some_iff.mp hat).1
  have hposlt' : pos < t.canonical_bare_labels.length := by
    have := hlen _ (List.getElem_mem hp)
    omega
  have hval : t.bare_index none p =
      .ok (some (t.canonical_bare_labels.getD pos [])) := by
    simp only [SpectrumLookup.bare_index, List.getElem?_eq_getElem hp, hpos,
      List.getElem?_eq_getElem hposlt', List.getD_eq_getElem?_getD,
      Option.getD_some]
  exact ⟨pos, hat, hfirst, hval, by rw [hval]; simp⟩

/-- Witness for C10: on `exampleTable`, `bare_index none 0` returns the bare
label `[1]` sitting at the first unassigned position. -/
theorem C10_bare_index_none_witness :
    ∃ pos,
      (exampleTable.dressed_indices.getD 0 [])[pos]? = some none ∧
      (∀ i, i < pos →
        (exampleTable.dressed_indices.getD 0 [])[i]? ≠ some none) ∧
      exampleTable.bare_index none 0 =
        .ok (some (exampleTable.canonical_bare_labels.getD pos [])) ∧
      exampleTable.bare_index none 0 ≠ .ok none :=
  C10_bare_index_none_sentinel exampleTable 0 (by decide) (by decide) (by decide)

/-- C6: `energy_bare_index(label, p)` equals the entry of the dressed
eigenenergy array for `p` at position `dressed_index(label, p)` whenever the
dressed index is assigned, and is `None` when the dressed index is
unassigned. -/
theorem C6_energy_bare_index_consistency
    (t : SpectrumLookup) (label : List Nat) (p : Nat) :
    (t.dressed_index label p = .ok none →
      t.energy_bare_index label p = .ok none) ∧
    (∀ d E v, t.dressed_index label p = .ok (some d) →
      t.dressed_eigenenergies p = .ok E → E[d]? = some v →
      t.energy_bare_index label p = .ok (some v)) := by
  constructor
  · intro h
    simp only [SpectrumLookup.energy_bare_index, energy_bare_index_body,
      guarded_dressed_index, check_sync_status, h]
  · intro d E v hd hE hv
    have hE' : t.dressed_energy_table[p]? = some E := by
      unfold SpectrumLookup.dressed_eigenenergies at hE
      cases htab : t.dressed_energy_table[p]? with
      | none => simp [htab] at hE
      | some E' =>
          simp only [htab, Except.ok.injEq] at hE
          rw [hE]
    simp only [SpectrumLookup.energy_bare_index, energy_bare_index_body,
      guarded_dressed_index, check_sync_status, hd, hE', hv]

/-- Witness for C6 on `exampleTable`: the assigned label `[0]` (dressed index
1) yields energy `7 = [5,7][1]`, and the unassigned label `[1]` yields
`None`. -/
theorem C6_energy_bare_index_witness :
    exampleTable.energy_bare_index [0] 0 = .ok (some 7) ∧
    exampleTable.energy_bare_index [1] 0 = .ok none :=
  ⟨(C6_energy_bare_index_consistency exampleTable [0] 0).2 1 [5, 7] 7
      rfl rfl rfl,
   (C6_energy_bare_index_consistency exampleTable [1] 0).1 rfl⟩

/-- C7 (amended): the staleness flag never affects any guarded query's result
(two-run noninterference), so setting it also never turns a succeeding query
into a failure; each wrapper invocation emits exactly one warning when the
flag is set and none when it is clear — hence every guarded query emits
exactly one warning per call *except* `energy_bare_index`, whose body invokes
the decorated `dressed_index` and therefore emits exactly two. -/
theorem C7_sync_guard_noninterference (t : SpectrumLookup) (b : Bool) :
    (∀ lbl p, (guarded_dressed_index (set_out_of_sync t b) lbl p).2 =
        t.dressed_index lbl p) ∧
    (∀ d p, (guarded_bare_index (set_out_of_sync t b) d p).2 =
        t.bare_index d p) ∧
    (∀ p, (guarded_dressed_eigenstates (set_out_of_sync t b) p).2 =
        t.dressed_eigenstates p) ∧
    (∀ p, (guarded_dressed_eigenenergies (set_out_of_sync t b) p).2 =
        t.dressed_eigenenergies p) ∧
    (∀ lbl p, (guarded_energy_bare_index (set_out_of_sync t b) lbl p).2 =
        t.energy_bare_index lbl p) ∧
    (∀ d p, (guarded_energy_dressed_index (set_out_of_sync t b) d p).2 =
        t.energy_dressed_index d p) ∧
    (∀ s p, (guarded_bare_eigenstates (set_out_of_sync t b) s p).2 =
        t.bare_eigenstates s p) ∧
    (∀ s p, (guarded_bare_eigenenergies (set_out_of_sync t b) s p).2 =
        t.bare_eigenenergies s p) ∧
    (∀ lbl p,
      (guarded_dressed_index (set_out_of_sync t true) lbl p).1.length = 1 ∧
      (guarded_dressed_index (set_out_of_sync t false) lbl p).1.length = 0) ∧
    (∀ d p,
      (guarded_bare_index (set_out_of_sync t true) d p).1.length = 1 ∧
      (guarded_bare_index (set_out_of_sync t false) d p).1.length = 0) ∧
    (∀ p,
      (guarded_dressed_eigenstates (set_out_of_sync t true) p).1.length = 1 ∧
      (guarded_dressed_eigenstates (set_out_of_sync t false) p).1.length = 0) ∧
    (∀ p,
      (guarded_dressed_eigenenergies (set_out_of_sync t true) p).1.length = 1 ∧
      (guarded_dressed_eigenenergies (set_out_of_sync t false) p).1.length = 0) ∧
    (∀ d p,
      (guarded_energy_dressed_index (set_out_of_sync t true) d p).1.length = 1 ∧
      (guarded_energy_dressed_index (set_out_of_sync t false) d p).1.length = 0) ∧
    (∀ s p,
      (guarded_bare_eigenstates (set_out_of_sync t true) s p).1.length = 1 ∧
      (guarded_bare_eigenstates (set_out_of_sync t false) s p).1.length = 0) ∧
    (∀ s p,
      (guarded_bare_eigenenergies (set_out_of_sync t true) s p).1.length = 1 ∧
      (guarded_bare_eigenenergies (set_out_of_sync t false) s p).1.length = 0) ∧
    (∀ lbl p,
      (guarded_energy_bare_index (set_out_of_sync t true) lbl p).1.length = 2 ∧
      (guarded_energy_bare_index (set_out_of_sync t false) lbl p).1.length = 0) :=
  ⟨fun _ _ => rfl, fun _ _ => rfl, fun _ => rfl, fun _ => rfl, fun _ _ => rfl,
   fun _ _ => rfl, fun _ _ => rfl, fun _ _ => rfl,
   fun _ _ => ⟨rfl, rfl⟩, fun _ _ => ⟨rfl, rfl⟩, fun _ => ⟨rfl, rfl⟩,
   fun _ => ⟨rfl, rfl⟩, fun _ _ => ⟨rfl, rfl⟩, fun _ _ => ⟨rfl, rfl⟩,
   fun _ _ => ⟨rfl, rfl⟩, fun _ _ => ⟨rfl, rfl⟩⟩

/-- Counterexample to C7 as stated: on a concrete stale table, one call to the
guarded `energy_bare_index` emits two warnings (the wrapper's own and the one
from the decorated `dressed_index` the body calls), not exactly one. -/
theorem C7_counterexample_two_warnings :
    (guarded_energy_bare_index exampleStaleTable [0] 0).1.length = 2 ∧
    (guarded_energy_bare_index exampleStaleTable [0] 0).1.length ≠ 1 :=
  ⟨rfl, by decide⟩

/-- C8: the spec requires a table owned directly by a `HilbertSpace` (no sweep,
so `_sweep` is `None`) to return the subsystem's full bare table from
`bare_eigenstates`/`bare_eigenenergies`.  The code instead raises on every such
call: `bare_eigenstates` forwards the `None`-valued `_sweep` to
`shared_lookup_bare_eigenstates`, which matches neither framework type and
raises `TypeError`; `bare_eigenenergies` evaluates
`self._sweep.subsys_update_list` on `None` and raises `AttributeError`. -/
theorem C8_hilbertspace_owned_bare_queries_raise
    (t : SpectrumLookup) (subsys p : Nat) (hs : t.sweep = none) :
    t.bare_eigenstates subsys p = .error "TypeError" ∧
    (subsys ∈ t.hilbert_subsystems →
      t.bare_eigenenergies subsys p = .error "AttributeError") := by
  constructor
  · simp only [SpectrumLookup.bare_eigenstates, hs]
    rfl
  · intro hmem
    rcases indexOf?_isSome_of_mem hmem with ⟨i, hi⟩
    simp only [SpectrumLookup.bare_eigenenergies, hi, hs]

/-- Witness for C8 on the concrete `HilbertSpace`-owned `exampleTable`: both
bare-data queries raise. -/
theorem C8_hilbertspace_owned_witness :
    exampleTable.bare_eigenstates 0 0 = .error "TypeError" ∧
    exampleTable.bare_eigenenergies 0 0 = .error "AttributeError" :=
  ⟨(C8_hilbertspace_owned_bare_queries_raise exampleTable 0 0 rfl).1,
   (C8_hilbertspace_owned_bare_queries_raise exampleTable 0 0 rfl).2
     (by decide)⟩
